import Mathlib

/-!
# AgriChatbot: the submission handler and the advice request dispatcher

A shallow embedding of `src/app/components/AgriChatbot.js`.

* JavaScript values that reach the component from the two JSON services are
  values of `JSValue`.
* A thrown JavaScript exception is the `error` side of `Except JSError`.
* The component state (`messages`, `input`, `isLoading`, `locationInfo`) is
  the record `Session`; every handler is a function on it.
* What the network does during a call is an argument of the handler
  (`FetchOutcome`, `GeoOutcome`); the `fetch` calls a handler issues are
  returned next to the new state.
* `handleSubmit` waits for the network at its `await`; `submitStart` is the
  part before the wait, `submitFinish` the part after it, `handleSubmit` the
  run in which no other handler comes in between, and `submitInterleaved`
  the run in which other handlers do.
-/

set_option autoImplicit false

namespace AgriChatbot

/-! ## JavaScript values -/

/-- The values `JSON.parse` can produce, and `undefined`.  A number is given
by the two things the component can observe of it: whether it is zero (its
truthiness) and the text `Number::toString` prints for it.  An object is the
list of its own properties; were a key listed twice, the first entry is the
property. -/
inductive JSValue where
  | undefined
  | null
  | bool (b : Bool)
  | num (isZero : Bool) (text : String)
  | str (s : String)
  | arr (items : List JSValue)
  | obj (fields : List (String × JSValue))

/-- The exceptions the component can see. -/
inductive JSError where
  /-- property read on `undefined` or `null`, or an object that cannot be
  converted to a primitive -/
  | typeError
  /-- the `new Error` thrown for a non-ok status -/
  | httpError (status : Nat)
  /-- `fetch` rejected -/
  | networkError
  /-- `response.json()` rejected -/
  | syntaxError
  /-- `JSON.stringify` threw -/
  | stringifyError
  deriving DecidableEq, Repr

/-- The property names the component reads.  None of them is defined on a
built-in prototype, so a read finds an own property or `undefined`. -/
inductive Field where
  | address | city | town | village | country | choices | message | content
  deriving DecidableEq, Repr

/-- The property name as written in the source. -/
def Field.key : Field → String
  | .address => "address"
  | .city => "city"
  | .town => "town"
  | .village => "village"
  | .country => "country"
  | .choices => "choices"
  | .message => "message"
  | .content => "content"

/-- Own property lookup in an object, by name. -/
def lookupField (k : String) : List (String × JSValue) → JSValue
  | [] => .undefined
  | (k', v) :: rest => if k' = k then v else lookupField k rest

/-- The read `v.f` for one of the names in `Field`. -/
def getProp (v : JSValue) (f : Field) : Except JSError JSValue :=
  match v with
  | .undefined => .error .typeError
  | .null => .error .typeError
  | .obj fields => .ok (lookupField f.key fields)
  | _ => .ok .undefined

/-- The read `v[0]`.  On a text it yields a text of one unit, which has none
of the properties in `Field`. -/
def getIndex0 (v : JSValue) : Except JSError JSValue :=
  match v with
  | .undefined => .error .typeError
  | .null => .error .typeError
  | .obj fields => .ok (lookupField "0" fields)
  | .arr [] => .ok .undefined
  | .arr (x :: _) => .ok x
  | .str s =>
    match s.data with
    | [] => .ok .undefined
    | c :: _ => .ok (.str (String.mk [c]))
  | _ => .ok .undefined

/-- JavaScript truthiness (`ToBoolean`). -/
def truthy : JSValue → Bool
  | .undefined => false
  | .null => false
  | .bool b => b
  | .num isZero _ => !isZero
  | .str s => s != ""
  | .arr _ => true
  | .obj _ => true

/-- The operator `a || b` on already evaluated operands (the operands here
are property reads without effects). -/
def jsOr (a b : JSValue) : JSValue :=
  if truthy a then a else b

/-- The object has an own property of that name. -/
def hasOwn (k : String) (fields : List (String × JSValue)) : Bool :=
  fields.any fun kv => kv.1 == k

mutual
/-- The conversion a template literal applies to a value (`ToString`).  An
object goes through `ToPrimitive`: an own `toString` property, which in a
parsed body is never callable, hides `Object.prototype.toString`, the
`valueOf` that is found next does not yield a primitive, and a TypeError is
thrown; without it the object prints as `[object Object]`.  An array prints
through `join`. -/
def toStr : JSValue → Except JSError String
  | .undefined => .ok "undefined"
  | .null => .ok "null"
  | .bool true => .ok "true"
  | .bool false => .ok "false"
  | .num _ text => .ok text
  | .str s => .ok s
  | .arr items => joinItems items
  | .obj fields =>
    if hasOwn "toString" fields then .error .typeError else .ok "[object Object]"
/-- `Array.prototype.join(",")`: the items are converted from left to right,
the first conversion that throws ends the call. -/
def joinItems : List JSValue → Except JSError String
  | [] => .ok ""
  | [x] => itemStr x
  | x :: y :: rest =>
    match itemStr x with
    | .error e => .error e
    | .ok first =>
      match joinItems (y :: rest) with
      | .error e => .error e
      | .ok more => .ok (first ++ "," ++ more)
/-- One item of a joined array: `null` and `undefined` print empty, every
other item as `toStr` prints it. -/
def itemStr : JSValue → Except JSError String
  | .undefined => .ok ""
  | .null => .ok ""
  | .bool true => .ok "true"
  | .bool false => .ok "false"
  | .num _ text => .ok text
  | .str s => .ok s
  | .arr items => joinItems items
  | .obj fields =>
    if hasOwn "toString" fields then .error .typeError else .ok "[object Object]"
end

/-! ## `String.prototype.trim` -/

/-- The code points `trim` strips: ECMAScript WhiteSpace and LineTerminator. -/
def isTrimChar (c : Char) : Bool :=
  let n := c.toNat
  n == 0x09 || n == 0x0A || n == 0x0B || n == 0x0C || n == 0x0D || n == 0x20 ||
  n == 0xA0 || n == 0x1680 || (0x2000 ≤ n && n ≤ 0x200A) || n == 0x2028 ||
  n == 0x2029 || n == 0x202F || n == 0x205F || n == 0x3000 || n == 0xFEFF

/-- The method `s.trim()`. -/
def jsTrim (s : String) : String :=
  String.mk ((s.data.dropWhile isTrimChar).reverse.dropWhile isTrimChar).reverse

/-! ## Component state, props and the network -/

/-- One entry of `messages`.  The role is the string literal of the source;
the content is whatever value the handler stored. -/
structure ChatMessage where
  role : String
  content : JSValue

/-- The four `useState` cells of the component. -/
structure Session where
  messages : List ChatMessage
  input : String
  isLoading : Bool
  locationInfo : JSValue

/-- The state of a freshly mounted component. -/
def Session.initial : Session :=
  { messages := [], input := "", isLoading := false, locationInfo := .null }

/-- The props as the dispatcher observes them: `latitude` and `longitude` are
the texts the template literal prints for the two coordinates, `nasaData` is
the text of `JSON.stringify(nasaData)`, or `none` when that call throws. -/
structure Props where
  latitude : String
  longitude : String
  nasaData : Option String

/-- The JSON body handed to `fetch` for the completion call. -/
structure CompletionRequest where
  model : String
  systemContent : String
  userContent : String

/-- What the completion service does with one call: `fetch` rejects, or it
resolves to a response with a status and a body (`none` when
`response.json()` rejects). -/
inductive FetchOutcome where
  | rejected
  | response (status : Nat) (body : Option JSValue)

/-- The getter `response.ok` of the Fetch API: status in 200..299. -/
def responseOk (status : Nat) : Bool :=
  200 ≤ status && status ≤ 299

/-- What the reverse-geocoding call does: `none` when `fetch` or
`response.json()` rejects, else the parsed body. -/
abbrev GeoOutcome := Option JSValue

/-! ## The handlers -/

/-- The body of `fetchLocationInfo`: the parsed body is stored as it is. -/
def fetchLocationInfo (s : Session) (geo : GeoOutcome) : Except JSError Session :=
  match geo with
  | some data => .ok { s with locationInfo := data }
  | none => .ok s

/-- The `onChange` handler of the text field: `setInput(e.target.value)`. -/
def changeInput (s : Session) (value : String) : Except JSError Session :=
  .ok { s with input := value }

/-- The `locationString` constant of `getBotResponse` (lines 56-58): each
substitution of the template literal is evaluated and converted in turn. -/
def locationString (locationInfo : JSValue) : Except JSError String :=
  if truthy locationInfo then do
    let address ← getProp locationInfo .address
    let city ← getProp address .city
    let town ← getProp address .town
    let village ← getProp address .village
    let place ← toStr (jsOr (jsOr (jsOr city town) village) (.str "Unknown City"))
    let address2 ← getProp locationInfo .address
    let country ← getProp address2 .country
    let countryText ← toStr (jsOr country (.str "Unknown Country"))
    pure (place ++ ", " ++ countryText)
  else
    pure "Unknown Location"

/-- The system message of the completion request. -/
def systemPrompt (p : Props) (locationString : String) (nasaJson : String) : String :=
  "You are an agricultural assistant who only talks about agriculture and crops. Answer concisely. The user's location is at coordinates "
    ++ p.latitude ++ "°N, " ++ p.longitude ++ "°E, which is in " ++ locationString ++
    ". Use this location information and the following NASA POWER API data to provide relevant agricultural advice: "
    ++ nasaJson

/-- The string `getBotResponse` returns from its `catch` block. -/
def dispatcherFallback : String :=
  "I'm sorry, I encountered an error while processing your request. Please try again later."

/-- The string `handleSubmit` appends from its `catch` block. -/
def handlerFallback : String :=
  "Sorry, I encountered an error. Please try again."

/-- The statements of the `try` block of `getBotResponse` after the call of
`fetch`: the status check and `data.choices[0].message.content`. -/
def readReply (net : FetchOutcome) : Except JSError JSValue :=
  match net with
  | .rejected => .error .networkError
  | .response status body =>
    if responseOk status then
      match body with
      | none => .error .syntaxError
      | some data => do
        let choices ← getProp data .choices
        let first ← getIndex0 choices
        let message ← getProp first .message
        getProp message .content
    else
      .error (.httpError status)

/-- How far `getBotResponse` gets before it first waits (lines 52-82). -/
inductive Dispatch where
  /-- building `locationString` threw, outside the `try`: the promise is
  rejected and nothing was sent -/
  | threw (e : JSError)
  /-- building the request body threw inside the `try`: nothing was sent -/
  | failed (e : JSError)
  /-- `fetch` was called with this request and is awaited -/
  | called (request : CompletionRequest)

/-- The synchronous part of `getBotResponse`: the location string, then the
request body with `JSON.stringify(nasaData)`, then the call of `fetch`. -/
def dispatch (p : Props) (locationInfo : JSValue) (userMessage : String) : Dispatch :=
  match locationString locationInfo with
  | .error e => .threw e
  | .ok loc =>
    match p.nasaData with
    | none => .failed .stringifyError
    | some nasaJson =>
      .called
        { model := "meta-llama/llama-3.1-8b-instruct:free"
          systemContent := systemPrompt p loc nasaJson
          userContent := userMessage }

/-- The completion calls issued by the synchronous part. -/
def Dispatch.sent : Dispatch → List CompletionRequest
  | .called request => [request]
  | _ => []

/-- What the promise of `getBotResponse` settles to: the exception thrown
outside the `try`, or the value of the `try` block, or the fallback returned
by the `catch` block for whatever was thrown inside the `try`. -/
def settle : Dispatch → FetchOutcome → Except JSError JSValue
  | .threw e, _ => .error e
  | .failed _, _ => .ok (.str dispatcherFallback)
  | .called _, net =>
    match readReply net with
    | .ok reply => .ok reply
    | .error _ => .ok (.str dispatcherFallback)

/-- The function `getBotResponse`: its result or the exception it throws,
and the completion calls it issued. -/
def getBotResponse (p : Props) (locationInfo : JSValue) (userMessage : String)
    (net : FetchOutcome) : Except JSError JSValue × List CompletionRequest :=
  (settle (dispatch p locationInfo userMessage) net,
   (dispatch p locationInfo userMessage).sent)

/-- Lines 42-48 of `handleSubmit`, run on the state found when the awaited
promise has settled: the assistant message is appended (the reply, or the
handler fallback from the `catch` block), then the loading flag is cleared. -/
def resume (s : Session) (result : Except JSError JSValue) : Session :=
  let s2 : Session :=
    match result with
    | .ok botResponse =>
      { s with messages := s.messages ++ [{ role := "assistant", content := botResponse }] }
    | .error _ =>
      { s with messages := s.messages ++
          [{ role := "assistant", content := .str handlerFallback }] }
  { s2 with isLoading := false }

/-- Where `handleSubmit` stands when it first gives up control. -/
inductive Started where
  /-- it has returned: the input was blank, or the awaited promise was
  settled already and lines 42-48 ran before any other handler -/
  | returned (s : Session)
  /-- it is suspended at the `await` of line 41 with this call in flight -/
  | waiting (s : Session) (request : CompletionRequest)

/-- The function `handleSubmit` up to the `await` of line 41. -/
def submitStart (p : Props) (s : Session) : Except JSError Started :=
  if jsTrim s.input = "" then
    .ok (.returned s)
  else
    let userMessage : ChatMessage := { role := "user", content := .str s.input }
    let s1 : Session :=
      { s with messages := s.messages ++ [userMessage], input := "", isLoading := true }
    match dispatch p s.locationInfo s.input with
    | .threw e => .ok (.returned (resume s1 (.error e)))
    | .failed _ => .ok (.returned (resume s1 (.ok (.str dispatcherFallback))))
    | .called request => .ok (.waiting s1 request)

/-- The function `handleSubmit` from the `await` of line 41 on, run on the
state `s` the component has when the completion call is answered. -/
def submitFinish (s : Session) (request : CompletionRequest) (net : FetchOutcome) :
    Except JSError Session :=
  .ok (resume s (settle (.called request) net))

/-- The function `handleSubmit` when no other handler runs while the
completion call is in flight: the state it leaves and the completion calls
issued, or the exception that escapes it. -/
def handleSubmit (p : Props) (s : Session) (net : FetchOutcome) :
    Except JSError (Session × List CompletionRequest) :=
  match submitStart p s with
  | .error e => .error e
  | .ok (.returned s1) => .ok (s1, [])
  | .ok (.waiting s1 request) =>
    match submitFinish s1 request net with
    | .error e => .error e
    | .ok s2 => .ok (s2, [request])

/-! ## Sequences of operations -/

/-- The operations that change the component state. -/
inductive Op where
  /-- the form is submitted; the completion service behaves as given -/
  | submit (net : FetchOutcome)
  /-- the coordinates effect runs `fetchLocationInfo` -/
  | fetchLocation (geo : GeoOutcome)
  /-- the user edits the text field -/
  | type (value : String)

/-- One operation, run to completion. -/
def step (p : Props) (s : Session) : Op → Except JSError (Session × List CompletionRequest)
  | .submit net => handleSubmit p s net
  | .fetchLocation geo => (fetchLocationInfo s geo).map fun s1 => (s1, [])
  | .type value => (changeInput s value).map fun s1 => (s1, [])

/-- One submission: the text typed into the field and what the completion
service does with the call. -/
structure Submission where
  text : String
  net : FetchOutcome

/-- The submissions are handled one after another: the text is typed, then
the form is submitted. -/
def submitAll (p : Props) : Session → List Submission → Except JSError Session
  | s, [] => .ok s
  | s, x :: rest =>
    match changeInput s x.text with
    | .error e => .error e
    | .ok s1 =>
      match handleSubmit p s1 x.net with
      | .error e => .error e
      | .ok (s2, _) => submitAll p s2 rest

/-- Operations run one after another. -/
def runOps (p : Props) : Session → List Op → Except JSError Session
  | s, [] => .ok s
  | s, op :: rest =>
    match step p s op with
    | .error e => .error e
    | .ok (s1, _) => runOps p s1 rest

/-- One submission together with the operations that run while its
completion call is in flight.  When `handleSubmit` never waits for the
network nothing can run in between. -/
def submitInterleaved (p : Props) (s : Session) (inFlight : List Op) (net : FetchOutcome) :
    Except JSError Session :=
  match submitStart p s with
  | .error e => .error e
  | .ok (.returned s1) => .ok s1
  | .ok (.waiting s1 request) =>
    match runOps p s1 inFlight with
    | .error e => .error e
    | .ok s2 => submitFinish s2 request net

/-! ## Vocabulary of the specification -/

/-- The content `handleSubmit` stores for a result of `getBotResponse`. -/
def replyContent : Except JSError JSValue → JSValue
  | .ok botResponse => botResponse
  | .error _ => .str handlerFallback

/-- A field of the geocoder's address as the specification sees it: a text,
or missing (`undefined` or `null`). -/
def asText : JSValue → Option String
  | .str s => some s
  | _ => none

/-- The field is a text or is missing. -/
def missingOrText : JSValue → Bool
  | .undefined => true
  | .null => true
  | .str _ => true
  | _ => false

/-- The first non-empty text among the candidates, or the default when all
of them are missing or empty. -/
def firstNonEmpty : List (Option String) → String → String
  | [], dflt => dflt
  | none :: rest, dflt => firstNonEmpty rest dflt
  | some s :: rest, dflt => if s = "" then firstNonEmpty rest dflt else s

/-! ## Sample inputs -/

/-- Props of a component placed at Nairobi with an empty climate object. -/
def sampleProps : Props :=
  { latitude := "-1.29", longitude := "36.82", nasaData := some "\x7b\x7d" }

/-- A fresh session in which the user has typed a question. -/
def sampleSession : Session :=
  { Session.initial with input := "When should I plant maize?" }

/-- The geocoder body `address: city Nairobi, country Kenya`. -/
def nairobi : JSValue :=
  .obj [("address", .obj [("city", .str "Nairobi"), ("country", .str "Kenya")])]

/-- The error body the geocoder sends for coordinates it cannot resolve. -/
def geocodeError : JSValue :=
  .obj [("error", .str "Unable to geocode")]

/-- A geocoder body whose city is an object with an own `toString` key. -/
def cityUnprintable : JSValue :=
  .obj [("address", .obj [("city", .obj [("toString", .num false "1")]),
    ("country", .str "Kenya")])]

/-- A completion body whose first choice has a message without `content`. -/
def bodyWithoutContent : JSValue :=
  .obj [("choices", .arr [.obj [("message", .obj [("role", .str "assistant")])]])]

/-- A completion body with the reply `Plant maize now.` -/
def bodyPlantMaize : JSValue :=
  .obj [("id", .str "gen-1"),
    ("choices", .arr [.obj [("message",
      .obj [("role", .str "assistant"), ("content", .str "Plant maize now.")])]])]

/-! ## Basic facts -/

theorem string_mk_eq_empty (l : List Char) : String.mk l = "" ↔ l = [] := by
  constructor
  · intro h
    exact congrArg String.data h
  · rintro rfl
    rfl

theorem dropWhile_head_not {α : Type} (q : α → Bool) (l : List α) (x : α)
    (hx : x ∈ (l.dropWhile q).head?) : q x = false := by
  induction l with
  | nil => simp at hx
  | cons a t ih =>
    by_cases ha : q a = true
    · rw [List.dropWhile_cons_of_pos ha] at hx
      exact ih hx
    · rw [List.dropWhile_cons_of_neg ha] at hx
      simp at hx
      subst hx
      simpa using ha

/-- The trimmed text is empty exactly when every character is stripped. -/
theorem jsTrim_eq_empty_iff (s : String) :
    jsTrim s = "" ↔ ∀ c ∈ s.data, isTrimChar c = true := by
  unfold jsTrim
  rw [string_mk_eq_empty, List.reverse_eq_nil_iff, List.dropWhile_eq_nil_iff]
  constructor
  · intro h
    rw [← List.dropWhile_eq_nil_iff]
    cases hd : s.data.dropWhile isTrimChar with
    | nil => rfl
    | cons a t =>
      exfalso
      have h1 : isTrimChar a = true := h a (by rw [hd]; simp)
      have h2 : isTrimChar a = false :=
        dropWhile_head_not isTrimChar s.data a (by rw [hd]; simp)
      rw [h1] at h2
      exact Bool.noConfusion h2
  · intro h x hx
    rw [List.dropWhile_eq_nil_iff.mpr h] at hx
    simp at hx

/-- A submission of a text that does not trim to nothing appends the user
message and the assistant message and leaves the exchange idle. -/
theorem handleSubmit_nonblank (p : Props) (s : Session) (net : FetchOutcome)
    (h : jsTrim s.input ≠ "") :
    handleSubmit p s net = .ok
      ({ messages := s.messages ++
            [{ role := "user", content := .str s.input },
             { role := "assistant",
               content := replyContent (getBotResponse p s.locationInfo s.input net).1 }],
         input := "", isLoading := false, locationInfo := s.locationInfo },
       (getBotResponse p s.locationInfo s.input net).2) := by
  unfold handleSubmit submitStart getBotResponse
  rw [if_neg h]
  cases dispatch p s.locationInfo s.input with
  | threw e => simp [resume, settle, replyContent, Dispatch.sent]
  | failed e => simp [resume, settle, replyContent, Dispatch.sent]
  | called request =>
    cases hr : readReply net <;>
      simp [submitFinish, resume, settle, replyContent, Dispatch.sent, hr]

/-- A submission of a text that trims to nothing changes nothing. -/
theorem handleSubmit_blank (p : Props) (s : Session) (net : FetchOutcome)
    (h : jsTrim s.input = "") : handleSubmit p s net = .ok (s, []) := by
  unfold handleSubmit submitStart
  rw [if_pos h]

/-- When the location string cannot be built, `getBotResponse` throws and
calls nothing. -/
theorem getBotResponse_of_location_error (p : Props) (li : JSValue) (msg : String)
    (net : FetchOutcome) (e : JSError) (h : locationString li = .error e) :
    getBotResponse p li msg net = (.error e, []) := by
  unfold getBotResponse dispatch
  rw [h]
  rfl

/-- When the location string is built and the climate data can be
serialised, `fetch` is called with the request that carries both. -/
theorem dispatch_of_location_ok (p : Props) (li : JSValue) (msg loc nasaJson : String)
    (h : locationString li = .ok loc) (hj : p.nasaData = some nasaJson) :
    dispatch p li msg = .called
      { model := "meta-llama/llama-3.1-8b-instruct:free",
        systemContent := systemPrompt p loc nasaJson, userContent := msg } := by
  unfold dispatch
  rw [h]
  simp only [hj]

/-- When the location string is built and the climate data cannot be
serialised, nothing is called. -/
theorem dispatch_of_stringify_error (p : Props) (li : JSValue) (msg loc : String)
    (h : locationString li = .ok loc) (hj : p.nasaData = none) :
    dispatch p li msg = .failed .stringifyError := by
  unfold dispatch
  rw [h]
  simp only [hj]

/-- With nothing in flight the interleaved run is `handleSubmit`. -/
theorem submitInterleaved_nil (p : Props) (s : Session) (net : FetchOutcome) :
    submitInterleaved p s [] net = (handleSubmit p s net).map fun r => r.1 := by
  unfold submitInterleaved handleSubmit
  cases submitStart p s with
  | error e => rfl
  | ok started =>
    cases started with
    | returned s1 => rfl
    | waiting s1 request => rfl

/-- Every operation completes; the input afterwards is the old one, or
empty, or the text the operation typed. -/
theorem step_input (p : Props) (s : Session) (op : Op) :
    ∃ s1 sent, step p s op = .ok (s1, sent) ∧
      (s1.input = s.input ∨ s1.input = "" ∨ ∃ value, op = .type value ∧ s1.input = value) := by
  cases op with
  | submit net =>
    by_cases hin : jsTrim s.input = ""
    · exact ⟨s, [], handleSubmit_blank p s net hin, Or.inl rfl⟩
    · exact ⟨_, _, handleSubmit_nonblank p s net hin, Or.inr (Or.inl rfl)⟩
  | fetchLocation geo =>
    cases geo with
    | none => exact ⟨s, [], rfl, Or.inl rfl⟩
    | some data => exact ⟨{ s with locationInfo := data }, [], rfl, Or.inl rfl⟩
  | type value =>
    exact ⟨{ s with input := value }, [], rfl, Or.inr (Or.inr ⟨value, rfl, rfl⟩)⟩

/-- Every run of operations completes; the input afterwards is the old one,
or empty, or a text typed during the run. -/
theorem runOps_input (p : Props) (ops : List Op) :
    ∀ s : Session, ∃ s1, runOps p s ops = .ok s1 ∧
      (s1.input = s.input ∨ s1.input = "" ∨
        ∃ value, Op.type value ∈ ops ∧ s1.input = value) := by
  induction ops with
  | nil =>
    intro s
    exact ⟨s, rfl, Or.inl rfl⟩
  | cons op rest ih =>
    intro s
    obtain ⟨s1, sent, hstep, h1⟩ := step_input p s op
    obtain ⟨s2, hrun, h2⟩ := ih s1
    refine ⟨s2, ?_, ?_⟩
    · simp only [runOps, hstep]
      exact hrun
    · rcases h2 with h2 | h2 | ⟨v, hv, h2⟩
      · rcases h1 with h1 | h1 | ⟨v, hv, h1⟩
        · exact Or.inl (h2.trans h1)
        · exact Or.inr (Or.inl (h2.trans h1))
        · exact Or.inr (Or.inr ⟨v, by rw [hv]; exact List.mem_cons_self _ _, h2.trans h1⟩)
      · exact Or.inr (Or.inl h2)
      · exact Or.inr (Or.inr ⟨v, List.mem_cons_of_mem _ hv, h2⟩)

/-- A rejected `fetch` and a non-ok status both raise inside the `try`. -/
theorem readReply_of_failure (net : FetchOutcome)
    (h : net = .rejected ∨ ∃ st body, net = .response st body ∧ responseOk st = false) :
    ∃ e, readReply net = .error e := by
  rcases h with rfl | ⟨st, body, rfl, hst⟩
  · exact ⟨_, rfl⟩
  · refine ⟨.httpError st, ?_⟩
    simp [readReply, hst]

/-- Every run of submissions of non-blank texts completes, and its messages
are the old ones followed by one user and one assistant message per
submission. -/
theorem submitAll_roles (p : Props) (subs : List Submission) :
    ∀ s : Session, (∀ x ∈ subs, jsTrim x.text ≠ "") →
      ∃ s1, submitAll p s subs = .ok s1 ∧
        s1.messages.map (fun m => m.role) =
          s.messages.map (fun m => m.role) ++
            (List.replicate subs.length ["user", "assistant"]).flatten := by
  induction subs with
  | nil =>
    intro s _
    exact ⟨s, rfl, by simp⟩
  | cons x rest ih =>
    intro s hne
    have hx : jsTrim x.text ≠ "" := hne x (List.mem_cons_self _ _)
    have hrest : ∀ y ∈ rest, jsTrim y.text ≠ "" :=
      fun y hy => hne y (List.mem_cons_of_mem _ hy)
    have hstep := handleSubmit_nonblank p { s with input := x.text } x.net hx
    obtain ⟨s1, hrun, hroles⟩ := ih _ hrest
    refine ⟨s1, ?_, ?_⟩
    · simp only [submitAll, changeInput]
      rw [hstep]
      exact hrun
    · rw [hroles]
      simp [List.replicate_succ]

/-- The operator `||` groups either way. -/
theorem jsOr_assoc (a b c : JSValue) : jsOr (jsOr a b) c = jsOr a (jsOr b c) := by
  unfold jsOr
  by_cases ha : truthy a = true
  · simp [ha]
  · simp [ha]

/-- Printing `a || r` when `a` is a text or missing: the text of `a` when it
is non-empty, else what `r` prints. -/
theorem toStr_jsOr_text (a r : JSValue) (rest : List (Option String)) (dflt : String)
    (ha : missingOrText a = true) (hr : toStr r = .ok (firstNonEmpty rest dflt)) :
    toStr (jsOr a r) = .ok (firstNonEmpty (asText a :: rest) dflt) := by
  cases a with
  | undefined => simp [jsOr, truthy, asText, firstNonEmpty, hr]
  | null => simp [jsOr, truthy, asText, firstNonEmpty, hr]
  | bool b => simp [missingOrText] at ha
  | num z t => simp [missingOrText] at ha
  | str t =>
    by_cases ht : t = ""
    · simp [jsOr, truthy, asText, firstNonEmpty, hr, ht]
    · simp [jsOr, truthy, asText, firstNonEmpty, ht, toStr]
  | arr items => simp [missingOrText] at ha
  | obj fields => simp [missingOrText] at ha

/-- The location string of a geocoder body with an address object, when both
substitutions can be printed. -/
theorem locationString_obj (fs af : List (String × JSValue)) (place countryText : String)
    (haddr : lookupField "address" fs = .obj af)
    (hplace : toStr (jsOr (jsOr (jsOr (lookupField "city" af) (lookupField "town" af))
        (lookupField "village" af)) (.str "Unknown City")) = .ok place)
    (hcountry : toStr (jsOr (lookupField "country" af) (.str "Unknown Country")) =
      .ok countryText) :
    locationString (.obj fs) = .ok (place ++ ", " ++ countryText) := by
  simp only [locationString, truthy, getProp, Field.key, haddr, if_true]
  simp only [bind, Except.bind, hplace, hcountry]
  rfl

/-- A city that is an object with an own `toString` key cannot be printed:
the location string throws, nothing is sent, and `handleSubmit` appends its
own literal whatever the completion service would have done. -/
theorem handleSubmit_unprintable_city (net : FetchOutcome) :
    locationString cityUnprintable = .error .typeError ∧
    handleSubmit sampleProps { sampleSession with locationInfo := cityUnprintable } net = .ok
      ({ messages :=
            [{ role := "user", content := .str "When should I plant maize?" },
             { role := "assistant", content := .str handlerFallback }],
         input := "", isLoading := false, locationInfo := cityUnprintable }, []) :=
  ⟨rfl, rfl⟩

/-! ## The claims -/

/-- C1 (as amended): for a transport failure of the fetch and for every
non-ok status, `handleSubmit` with a non-blank input returns normally and
appends the user message and exactly one assistant message.  Its content is
the fallback of `getBotResponse`, "I'm sorry, I encountered an error while
processing your request. Please try again later.", whenever the location
string is built without an exception; it is the literal of `handleSubmit`,
"Sorry, I encountered an error. Please try again.", when building the
location string throws. -/
theorem handleSubmit_failure_appends_fallback (p : Props) (s : Session)
    (net : FetchOutcome) (hin : jsTrim s.input ≠ "")
    (hnet : net = .rejected ∨
      ∃ st body, net = .response st body ∧ responseOk st = false) :
    ∃ sent, handleSubmit p s net = .ok
      ({ messages := s.messages ++
            [{ role := "user", content := .str s.input },
             { role := "assistant",
               content := .str
                 (match locationString s.locationInfo with
                  | .ok _ => "I'm sorry, I encountered an error while processing your request. Please try again later."
                  | .error _ => "Sorry, I encountered an error. Please try again.") }],
         input := "", isLoading := false, locationInfo := s.locationInfo },
       sent) := by
  refine ⟨(getBotResponse p s.locationInfo s.input net).2, ?_⟩
  rw [handleSubmit_nonblank p s net hin]
  obtain ⟨e, he⟩ := readReply_of_failure net hnet
  cases hl : locationString s.locationInfo with
  | error e1 =>
    rw [getBotResponse_of_location_error p _ _ net e1 hl]
    rfl
  | ok loc =>
    unfold getBotResponse
    cases hj : p.nasaData with
    | none =>
      rw [dispatch_of_stringify_error p _ _ loc hl hj]
      rfl
    | some j =>
      rw [dispatch_of_location_ok p _ _ loc j hl hj]
      simp [settle, he, replyContent, dispatcherFallback, Dispatch.sent]

/-- Witness for C1 (as amended): a status 500 answer to a question typed
into a fresh session. -/
theorem handleSubmit_failure_appends_fallback_witness :
    ∃ sent, handleSubmit sampleProps sampleSession (.response 500 none) = .ok
      ({ messages :=
            [{ role := "user", content := .str "When should I plant maize?" },
             { role := "assistant",
               content := .str "I'm sorry, I encountered an error while processing your request. Please try again later." }],
         input := "", isLoading := false, locationInfo := .null },
       sent) :=
  handleSubmit_failure_appends_fallback sampleProps sampleSession (.response 500 none)
    (by decide) (Or.inr ⟨500, none, rfl, rfl⟩)

/-- C1 fails as stated: after a status 500 answer in a fresh session the
assistant message does not begin with "Sorry, I encountered an error". -/
theorem handleSubmit_status500_not_sorry_prefix :
    ¬ ∃ s1 sent c,
      handleSubmit sampleProps sampleSession (.response 500 none) = .ok (s1, sent) ∧
      s1.messages = sampleSession.messages ++
        [{ role := "user", content := .str sampleSession.input },
         { role := "assistant", content := .str c }] ∧
      "Sorry, I encountered an error".data <+: c.data := by
  rintro ⟨s1, sent, c, hrun, hmsgs, hpre⟩
  have heval : handleSubmit sampleProps sampleSession (.response 500 none) = .ok
      ({ messages :=
            [{ role := "user", content := .str "When should I plant maize?" },
             { role := "assistant", content := .str dispatcherFallback }],
         input := "", isLoading := false, locationInfo := .null },
       [{ model := "meta-llama/llama-3.1-8b-instruct:free",
          systemContent := systemPrompt sampleProps "Unknown Location" "\x7b\x7d",
          userContent := "When should I plant maize?" }]) := rfl
  rw [heval] at hrun
  injection hrun with hrun
  injection hrun with hs1 _
  subst hs1
  simp only [sampleSession, Session.initial, List.nil_append, List.cons.injEq,
    ChatMessage.mk.injEq, JSValue.str.injEq, true_and, and_true] at hmsgs
  subst hmsgs
  revert hpre
  decide

/-- C2: from an empty conversation, N submissions of non-blank texts handled
one after another, whatever each completion call does, all complete and leave
exactly 2N messages, alternating user and assistant. -/
theorem submitAll_length_two_n (p : Props) (s : Session) (subs : List Submission)
    (hempty : s.messages = []) (hne : ∀ x ∈ subs, jsTrim x.text ≠ "") :
    ∃ s1, submitAll p s subs = .ok s1 ∧
      s1.messages.length = 2 * subs.length ∧
      s1.messages.map (fun m => m.role) =
        (List.replicate subs.length ["user", "assistant"]).flatten := by
  obtain ⟨s1, hrun, hroles⟩ := submitAll_roles p subs s hne
  rw [hempty, List.map_nil, List.nil_append] at hroles
  refine ⟨s1, hrun, ?_, hroles⟩
  have hlen := congrArg List.length hroles
  rw [List.length_map] at hlen
  rw [hlen]
  simp [List.length_flatten, Nat.mul_comm]

/-- Witness for C2: a reply, a status 500 and a transport failure in a row
leave six messages. -/
theorem submitAll_length_two_n_witness :
    ∃ s1, submitAll sampleProps Session.initial
        [⟨"hello", .response 200 (some bodyPlantMaize)⟩,
         ⟨"soil?", .response 500 none⟩, ⟨"rain?", .rejected⟩] = .ok s1 ∧
      s1.messages.length = 2 * 3 ∧
      s1.messages.map (fun m => m.role) =
        (List.replicate 3 ["user", "assistant"]).flatten :=
  submitAll_length_two_n sampleProps Session.initial
    [⟨"hello", .response 200 (some bodyPlantMaize)⟩,
     ⟨"soil?", .response 500 none⟩, ⟨"rain?", .rejected⟩] rfl (by decide)

/-- C3 fails as stated: with `locationInfo` null the location string is not
"Unknown City, Unknown Country". -/
theorem locationString_null_not_unknown_city :
    ¬ (locationString .null = .ok "Unknown City, Unknown Country") := by
  intro h
  have heval : locationString .null = .ok "Unknown Location" := rfl
  rw [heval] at h
  injection h with h
  revert h
  decide

/-- C3 (as amended): with `locationInfo` null the location string is the
literal "Unknown Location", and that is the string in the system message of
the completion call. -/
theorem locationString_null_unknown_location (lat lon nasaJson msg : String)
    (net : FetchOutcome) :
    locationString .null = .ok "Unknown Location" ∧
    (getBotResponse { latitude := lat, longitude := lon, nasaData := some nasaJson }
        .null msg net).2 =
      [{ model := "meta-llama/llama-3.1-8b-instruct:free",
         systemContent :=
           "You are an agricultural assistant who only talks about agriculture and crops. Answer concisely. The user's location is at coordinates "
             ++ lat ++ "°N, " ++ lon ++ "°E, which is in " ++ "Unknown Location" ++
             ". Use this location information and the following NASA POWER API data to provide relevant agricultural advice: "
             ++ nasaJson,
         userContent := msg }] := by
  refine ⟨rfl, ?_⟩
  have hloc : locationString .null = .ok "Unknown Location" := rfl
  unfold getBotResponse
  rw [dispatch_of_location_ok _ .null msg "Unknown Location" nasaJson hloc rfl]
  rfl

/-- C4: for a `locationInfo` with an address object whose city, town,
village and country are texts or missing, the location string is C, a comma
and a blank, and K, where C is the first non-empty text among city, town and
village or "Unknown City", and K is the country or "Unknown Country"; the
completion call carries it inside the content of its system message. -/
theorem locationString_of_address (p : Props) (fs af : List (String × JSValue))
    (msg nasaJson : String) (net : FetchOutcome)
    (haddr : lookupField "address" fs = .obj af)
    (hcity : missingOrText (lookupField "city" af) = true)
    (htown : missingOrText (lookupField "town" af) = true)
    (hvillage : missingOrText (lookupField "village" af) = true)
    (hcountry : missingOrText (lookupField "country" af) = true)
    (hjson : p.nasaData = some nasaJson) :
    locationString (.obj fs) = .ok
      (firstNonEmpty [asText (lookupField "city" af), asText (lookupField "town" af),
          asText (lookupField "village" af)] "Unknown City" ++ ", " ++
        firstNonEmpty [asText (lookupField "country" af)] "Unknown Country") ∧
    ∃ req before after,
      (getBotResponse p (.obj fs) msg net).2 = [req] ∧
      req.systemContent = before ++
        (firstNonEmpty [asText (lookupField "city" af), asText (lookupField "town" af),
            asText (lookupField "village" af)] "Unknown City" ++ ", " ++
          firstNonEmpty [asText (lookupField "country" af)] "Unknown Country") ++ after := by
  have hbase : ∀ d : String, toStr (.str d) = .ok (firstNonEmpty [] d) := fun _ => rfl
  have hC : toStr (jsOr (jsOr (jsOr (lookupField "city" af) (lookupField "town" af))
        (lookupField "village" af)) (.str "Unknown City")) =
      .ok (firstNonEmpty [asText (lookupField "city" af), asText (lookupField "town" af),
        asText (lookupField "village" af)] "Unknown City") := by
    rw [jsOr_assoc, jsOr_assoc]
    exact toStr_jsOr_text _ _ _ _ hcity
      (toStr_jsOr_text _ _ _ _ htown (toStr_jsOr_text _ _ _ _ hvillage (hbase _)))
  have hK : toStr (jsOr (lookupField "country" af) (.str "Unknown Country")) =
      .ok (firstNonEmpty [asText (lookupField "country" af)] "Unknown Country") :=
    toStr_jsOr_text _ _ _ _ hcountry (hbase _)
  have hloc := locationString_obj fs af _ _ haddr hC hK
  refine ⟨hloc, ?_⟩
  unfold getBotResponse
  rw [dispatch_of_location_ok p _ msg _ nasaJson hloc hjson]
  generalize firstNonEmpty [asText (lookupField "city" af), asText (lookupField "town" af),
      asText (lookupField "village" af)] "Unknown City" ++ ", " ++
    firstNonEmpty [asText (lookupField "country" af)] "Unknown Country" = loc
  refine ⟨{ model := "meta-llama/llama-3.1-8b-instruct:free",
            systemContent := systemPrompt p loc nasaJson, userContent := msg },
    "You are an agricultural assistant who only talks about agriculture and crops. Answer concisely. The user's location is at coordinates "
      ++ p.latitude ++ "°N, " ++ p.longitude ++ "°E, which is in ",
    ". Use this location information and the following NASA POWER API data to provide relevant agricultural advice: "
      ++ nasaJson, ?_, ?_⟩
  · rfl
  · simp only [systemPrompt, String.append_assoc]

/-- Witness for C4: the geocoder body with city Nairobi and country Kenya
gives "Nairobi, Kenya". -/
theorem locationString_of_address_witness :
    locationString nairobi = .ok "Nairobi, Kenya" ∧
    ∃ req before after,
      (getBotResponse sampleProps nairobi "When should I plant maize?" .rejected).2 = [req] ∧
      req.systemContent = before ++ "Nairobi, Kenya" ++ after :=
  locationString_of_address sampleProps
    [("address", .obj [("city", .str "Nairobi"), ("country", .str "Kenya")])]
    [("city", .str "Nairobi"), ("country", .str "Kenya")]
    "When should I plant maize?" "\x7b\x7d" .rejected rfl rfl rfl rfl rfl rfl

/-- C5: when every character of the input is one that `trim` strips (the
empty input included), `handleSubmit` returns the session as it was,
messages, input text and loading flag alike, and issues no completion call. -/
theorem handleSubmit_blank_noop (p : Props) (s : Session) (net : FetchOutcome)
    (hblank : ∀ c ∈ s.input.data, isTrimChar c = true) :
    handleSubmit p s net = .ok (s, []) :=
  handleSubmit_blank p s net ((jsTrim_eq_empty_iff s.input).mpr hblank)

/-- Witness for C5: blanks, a tab and a line feed typed after two messages,
while loading. -/
theorem handleSubmit_blank_noop_witness :
    (∀ c ∈ (" \t\n" : String).data, isTrimChar c = true) ∧
    handleSubmit sampleProps
        { messages := [⟨"user", .str "hello"⟩, ⟨"assistant", .str "Plant maize now."⟩],
          input := " \t\n", isLoading := true, locationInfo := nairobi }
        (.response 200 (some bodyPlantMaize)) = .ok
      ({ messages := [⟨"user", .str "hello"⟩, ⟨"assistant", .str "Plant maize now."⟩],
         input := " \t\n", isLoading := true, locationInfo := nairobi }, []) :=
  ⟨by decide, handleSubmit_blank_noop sampleProps _ _ (by decide)⟩

/-- C6: when the completion call is issued and answered with an ok status
and a body whose `choices[0].message.content` is the text `reply`,
`getBotResponse` returns `reply` and `handleSubmit` appends the assistant
message with exactly that content. -/
theorem handleSubmit_reply_verbatim (p : Props) (s : Session) (st : Nat)
    (fs cf mf : List (String × JSValue)) (others : List JSValue)
    (reply loc nasaJson : String)
    (hin : jsTrim s.input ≠ "")
    (hloc : locationString s.locationInfo = .ok loc)
    (hjson : p.nasaData = some nasaJson)
    (hst : responseOk st = true)
    (hchoices : lookupField "choices" fs = .arr (.obj cf :: others))
    (hmessage : lookupField "message" cf = .obj mf)
    (hcontent : lookupField "content" mf = .str reply) :
    (getBotResponse p s.locationInfo s.input (.response st (some (.obj fs)))).1 =
      .ok (.str reply) ∧
    ∃ sent, handleSubmit p s (.response st (some (.obj fs))) = .ok
      ({ messages := s.messages ++
            [{ role := "user", content := .str s.input },
             { role := "assistant", content := .str reply }],
         input := "", isLoading := false, locationInfo := s.locationInfo },
       sent) := by
  have hread : readReply (.response st (some (.obj fs))) = .ok (.str reply) := by
    simp only [readReply, hst, if_true, getProp, Field.key, hchoices]
    show (getProp (.obj cf) .message >>= fun message => getProp message .content) = _
    simp only [getProp, Field.key, hmessage]
    show getProp (.obj mf) .content = _
    simp only [getProp, Field.key, hcontent]
  have hget : (getBotResponse p s.locationInfo s.input
      (.response st (some (.obj fs)))).1 = .ok (.str reply) := by
    unfold getBotResponse
    rw [dispatch_of_location_ok p _ _ loc nasaJson hloc hjson]
    simp only [settle, hread]
  refine ⟨hget, (getBotResponse p s.locationInfo s.input
    (.response st (some (.obj fs)))).2, ?_⟩
  rw [handleSubmit_nonblank p s _ hin, hget]
  rfl

/-- Witness for C6: the reply "Plant maize now." reaches the conversation
unchanged. -/
theorem handleSubmit_reply_verbatim_witness :
    (getBotResponse sampleProps .null "When should I plant maize?"
        (.response 200 (some bodyPlantMaize))).1 = .ok (.str "Plant maize now.") ∧
    ∃ sent, handleSubmit sampleProps sampleSession (.response 200 (some bodyPlantMaize)) = .ok
      ({ messages :=
            [{ role := "user", content := .str "When should I plant maize?" },
             { role := "assistant", content := .str "Plant maize now." }],
         input := "", isLoading := false, locationInfo := .null },
       sent) :=
  handleSubmit_reply_verbatim sampleProps sampleSession 200
    [("id", .str "gen-1"),
     ("choices", .arr [.obj [("message",
        .obj [("role", .str "assistant"), ("content", .str "Plant maize now.")])]])]
    [("message", .obj [("role", .str "assistant"), ("content", .str "Plant maize now.")])]
    [("role", .str "assistant"), ("content", .str "Plant maize now.")]
    [] "Plant maize now." "Unknown Location" "\x7b\x7d"
    (by decide) rfl rfl rfl rfl rfl rfl

/-- C7, the code at four malformed ok bodies: without `choices`, with empty
`choices`, and with a first choice without `message` the read throws and the
dispatcher fallback is appended; with a message without `content` nothing
throws and the assistant message is appended with content `undefined`. -/
theorem handleSubmit_malformed_bodies :
    (handleSubmit sampleProps sampleSession (.response 200 (some (.obj [])))).map
        (fun r => r.1.messages) = .ok
      [{ role := "user", content := .str "When should I plant maize?" },
       { role := "assistant", content := .str dispatcherFallback }] ∧
    (handleSubmit sampleProps sampleSession
        (.response 200 (some (.obj [("choices", .arr [])])))).map
        (fun r => r.1.messages) = .ok
      [{ role := "user", content := .str "When should I plant maize?" },
       { role := "assistant", content := .str dispatcherFallback }] ∧
    (handleSubmit sampleProps sampleSession
        (.response 200 (some (.obj [("choices", .arr [.obj []])])))).map
        (fun r => r.1.messages) = .ok
      [{ role := "user", content := .str "When should I plant maize?" },
       { role := "assistant", content := .str dispatcherFallback }] ∧
    (handleSubmit sampleProps sampleSession (.response 200 (some bodyWithoutContent))).map
        (fun r => r.1.messages) = .ok
      [{ role := "user", content := .str "When should I plant maize?" },
       { role := "assistant", content := .undefined }] :=
  ⟨rfl, rfl, rfl, rfl⟩

/-- C8: every operation of the component completes and leaves the earlier
messages as a prefix of the later ones.  A submission appends nothing when
the input trims to nothing, and else the user message with role user and the
input as typed, followed by one assistant message; the other operations leave
the messages as they were. -/
theorem messages_append_only (p : Props) (s : Session) (op : Op) :
    ∃ s1 sent, step p s op = .ok (s1, sent) ∧
      s.messages <+: s1.messages ∧
      (match op with
        | .submit _ =>
          (jsTrim s.input = "" ∧ s1.messages = s.messages) ∨
          (jsTrim s.input ≠ "" ∧ ∃ reply, s1.messages = s.messages ++
            [{ role := "user", content := .str s.input },
             { role := "assistant", content := reply }])
        | .fetchLocation _ => s1.messages = s.messages
        | .type _ => s1.messages = s.messages) := by
  cases op with
  | submit net =>
    by_cases hin : jsTrim s.input = ""
    · exact ⟨s, [], handleSubmit_blank p s net hin, List.prefix_refl _, Or.inl ⟨hin, rfl⟩⟩
    · exact ⟨_, _, handleSubmit_nonblank p s net hin, List.prefix_append _ _,
        Or.inr ⟨hin, _, rfl⟩⟩
  | fetchLocation geo =>
    cases geo with
    | none => exact ⟨s, [], rfl, List.prefix_refl _, rfl⟩
    | some data => exact ⟨{ s with locationInfo := data }, [], rfl, List.prefix_refl _, rfl⟩
  | type value =>
    exact ⟨{ s with input := value }, [], rfl, List.prefix_refl _, rfl⟩

/-- C9 fails as stated: a text typed while the completion call is in flight
is still in the input when `handleSubmit` finishes. -/
theorem submitInterleaved_input_not_empty :
    ¬ ∃ s1,
      submitInterleaved sampleProps sampleSession [.type "and beans?"]
          (.response 200 (some bodyPlantMaize)) = .ok s1 ∧
      s1.isLoading = false ∧ s1.input = "" := by
  rintro ⟨s1, hrun, _, hinput⟩
  have heval : submitInterleaved sampleProps sampleSession [.type "and beans?"]
      (.response 200 (some bodyPlantMaize)) = .ok
      { messages :=
          [{ role := "user", content := .str "When should I plant maize?" },
           { role := "assistant", content := .str "Plant maize now." }],
        input := "and beans?", isLoading := false, locationInfo := .null } := rfl
  rw [heval] at hrun
  injection hrun with hrun
  subst hrun
  revert hinput
  decide

/-- C9 (as amended): for every non-blank submission, every outcome of the
completion call and whatever the other handlers do while the call is in
flight, `handleSubmit` finishes normally with the loading flag false.  The
input was cleared when the submission started and is not written again by
`handleSubmit`: at the finish it is empty, or it is a text typed while the
call was in flight. -/
theorem submitInterleaved_finishes (p : Props) (s : Session) (inFlight : List Op)
    (net : FetchOutcome) (hin : jsTrim s.input ≠ "") :
    ∃ s1, submitInterleaved p s inFlight net = .ok s1 ∧
      s1.isLoading = false ∧
      (s1.input = "" ∨ ∃ value, Op.type value ∈ inFlight ∧ s1.input = value) := by
  unfold submitInterleaved submitStart
  rw [if_neg hin]
  cases dispatch p s.locationInfo s.input with
  | threw e => exact ⟨_, rfl, rfl, Or.inl rfl⟩
  | failed e => exact ⟨_, rfl, rfl, Or.inl rfl⟩
  | called request =>
    obtain ⟨s2, hrun, h2⟩ := runOps_input p inFlight
      { s with messages := s.messages ++ [{ role := "user", content := .str s.input }],
               input := "", isLoading := true }
    refine ⟨resume s2 (settle (.called request) net), ?_, rfl, ?_⟩
    · simp only [hrun, submitFinish]
    · have hkeep : (resume s2 (settle (.called request) net)).input = s2.input := by
        unfold resume
        cases settle (.called request) net <;> rfl
      rw [hkeep]
      rcases h2 with h2 | h2 | h2
      · exact Or.inl h2
      · exact Or.inl h2
      · exact Or.inr h2

/-- Witness for C9 (as amended): the location is refreshed and a text is
typed while a status 500 answer is on its way. -/
theorem submitInterleaved_finishes_witness :
    ∃ s1, submitInterleaved sampleProps sampleSession
        [.fetchLocation (some nairobi), .type "and beans?"] (.response 500 none) = .ok s1 ∧
      s1.isLoading = false ∧
      (s1.input = "" ∨
        ∃ value, Op.type value ∈ [Op.fetchLocation (some nairobi), Op.type "and beans?"] ∧
          s1.input = value) :=
  submitInterleaved_finishes sampleProps sampleSession
    [.fetchLocation (some nairobi), .type "and beans?"] (.response 500 none) (by decide)

/-- C10: `fetchLocationInfo` stores the geocoder body unchecked; when that
body is truthy and its `address` is `undefined` or `null`, `getBotResponse`
throws a TypeError while building the location string and issues no
completion call, and `handleSubmit` with a non-blank input returns normally,
appends "Sorry, I encountered an error. Please try again." as the one
assistant message and clears the loading flag. -/
theorem handleSubmit_without_address (p : Props) (s : Session) (data : JSValue)
    (net : FetchOutcome) (hin : jsTrim s.input ≠ "")
    (hpresent : truthy data = true)
    (haddr : getProp data .address = .ok .undefined ∨ getProp data .address = .ok .null) :
    fetchLocationInfo s (some data) = .ok { s with locationInfo := data } ∧
    getBotResponse p data s.input net = (.error .typeError, []) ∧
    handleSubmit p { s with locationInfo := data } net = .ok
      ({ messages := s.messages ++
            [{ role := "user", content := .str s.input },
             { role := "assistant",
               content := .str "Sorry, I encountered an error. Please try again." }],
         input := "", isLoading := false, locationInfo := data },
       []) := by
  have hloc : locationString data = .error .typeError := by
    unfold locationString
    rw [if_pos hpresent]
    rcases haddr with h | h <;> rw [h] <;> rfl
  have hget := getBotResponse_of_location_error p data s.input net _ hloc
  refine ⟨rfl, hget, ?_⟩
  rw [handleSubmit_nonblank p { s with locationInfo := data } net hin]
  show Except.ok (_, (getBotResponse p data s.input net).2) = _
  rw [hget]
  rfl

/-- Witness for C10: the geocoder answers with its error body, then a
question is submitted. -/
theorem handleSubmit_without_address_witness :
    fetchLocationInfo sampleSession (some geocodeError) =
      .ok { sampleSession with locationInfo := geocodeError } ∧
    getBotResponse sampleProps geocodeError sampleSession.input
        (.response 200 (some bodyPlantMaize)) = (.error .typeError, []) ∧
    handleSubmit sampleProps { sampleSession with locationInfo := geocodeError }
        (.response 200 (some bodyPlantMaize)) = .ok
      ({ messages := sampleSession.messages ++
            [{ role := "user", content := .str sampleSession.input },
             { role := "assistant",
               content := .str "Sorry, I encountered an error. Please try again." }],
         input := "", isLoading := false, locationInfo := geocodeError },
       []) :=
  handleSubmit_without_address sampleProps sampleSession geocodeError
    (.response 200 (some bodyPlantMaize)) (by decide) rfl (Or.inl rfl)

end AgriChatbot
